import Mathlib

/-!
Shallow embedding of the Free Fire Max Tournament API backend
(src/main.py and src/schemas.py), together with a model of the document
store reached through database.py and pymongo.  Handlers are translated
function by function; the process-wide store handle becomes an explicit
`DB` value threaded through the write handlers, and the random bytes
drawn by secrets.token_hex become an explicit argument.
-/

namespace Backend

/-- A BSON-like value as stored in and returned by the document store.
Datetimes are modelled as integer timestamps; the free-form `result`
payload of a Match is modelled as a map from strings to strings. -/
inductive Val where
  | vNull
  | vBool (b : Bool)
  | vInt (n : Int)
  | vStr (s : String)
  | vOid (s : String)
  | vStrList (l : List String)
  | vStrMap (m : List (String × String))
deriving DecidableEq, Repr

/-- A stored document: an association list with the key order of a Python dict. -/
abbrev Doc := List (String × Val)

/-- Python dict lookup (d.get(k)): the first binding of the key, if any. -/
def dget : Doc → String → Option Val
  | [], _ => none
  | (k2, v) :: rest, k => if k2 == k then some v else dget rest k

/-- Python dict assignment (d[k] = v): replace in place if the key exists,
otherwise append at the end, as Python dicts preserve insertion order. -/
def dset : Doc → String → Val → Doc
  | [], k, v => [(k, v)]
  | (k2, v2) :: rest, k, v =>
      if k2 == k then (k, v) :: rest else (k2, v2) :: dset rest k v

/-- Python dict removal (d.pop(k)): drop the binding of the key. -/
def derase : Doc → String → Doc
  | [], _ => []
  | (k2, v2) :: rest, k =>
      if k2 == k then derase rest k else (k2, v2) :: derase rest k

/-- Python truthiness of a stored value (bool(v)). -/
def Val.truthy : Val → Bool
  | .vNull => false
  | .vBool b => b
  | .vInt n => n != 0
  | .vStr s => s != ""
  | .vOid _ => true
  | .vStrList l => !l.isEmpty
  | .vStrMap m => !m.isEmpty

/-- Python str(v).  The handlers only ever apply str to ObjectId values and
to None; the compound cases are rendered without the quoting of repr, which
no handler observes. -/
def pyStr : Val → String
  | .vNull => "None"
  | .vBool b => if b then "True" else "False"
  | .vInt n => toString n
  | .vStr s => s
  | .vOid s => s
  | .vStrList l => String.intercalate ", " l
  | .vStrMap _ => ""

/-- Python d.get(k) where a missing key yields None. -/
def pyGet (d : Doc) (k : String) : Val := (dget d k).getD Val.vNull

/-- An optional string as stored by model_dump: None or the string. -/
def optStr : Option String → Val
  | none => Val.vNull
  | some s => Val.vStr s

/-- An optional timestamp as stored by model_dump. -/
def optInt : Option Int → Val
  | none => Val.vNull
  | some n => Val.vInt n

/-- An optional list of strings as stored by model_dump. -/
def optStrList : Option (List String) → Val
  | none => Val.vNull
  | some l => Val.vStrList l

/-- An optional free-form map as stored by model_dump. -/
def optStrMap : Option (List (String × String)) → Val
  | none => Val.vNull
  | some m => Val.vStrMap m

/-- Is the character a hex digit (0-9, a-f, A-F). -/
def isHexChar (c : Char) : Bool :=
  c.isDigit || (97 ≤ c.toNat && c.toNat ≤ 102) || (65 ≤ c.toNat && c.toNat ≤ 70)

/-- Lowercasing of a string, character by character. -/
def toLowerStr (s : String) : String := String.mk (s.data.map Char.toLower)

/-- bson ObjectId(s) for a string argument: succeeds exactly on 24 hex
characters and yields the canonical lowercase form; anything else raises. -/
def parseOid (s : String) : Option String :=
  if s.length == 24 && s.data.all isHexChar then some (toLowerStr s) else none

/-- Modelled from the spec: the document store assigns each inserted record
a fresh internal id of 24 lowercase hex characters (bson ObjectId form);
the model derives it from the insertion counter of the store. -/
def freshOid (n : Nat) : String :=
  String.mk ((List.range 24).reverse.map (fun k => Nat.digitChar (n / 16 ^ k % 16)))

/-- secrets.token_hex over an explicit list of random bytes: each byte
becomes two lowercase hex characters.  main.py draws three bytes. -/
def token_hex (bytes : List Nat) : String :=
  String.mk (bytes.foldr
    (fun b acc => Nat.digitChar (b / 16 % 16) :: Nat.digitChar (b % 16) :: acc) [])

/-- schemas.Tournament after pydantic validation. -/
structure Tournament where
  title : String
  description : Option String
  game : String
  mode : String
  prize_pool : Option String
  entry_fee : Option String
  max_participants : Int
  starts_at : Option Int
  rules : Option String
  status : String
  banner_url : Option String
  region : Option String
  share_code : Option String
deriving DecidableEq, Repr

/-- A raw request body for POST /api/tournaments before validation;
`none` stands for an omitted field. -/
structure RawTournament where
  title : Option String
  description : Option String
  game : Option String
  mode : Option String
  prize_pool : Option String
  entry_fee : Option String
  max_participants : Option Int
  starts_at : Option Int
  rules : Option String
  status : Option String
  banner_url : Option String
  region : Option String
  share_code : Option String
deriving DecidableEq, Repr

/-- pydantic validation of a Tournament body: required title, mode and
status restricted to their Literal sets, max_participants within 1..1000,
declared defaults for omitted fields.  Error reporting is collapsed to the
first failing field. -/
def parseTournament (raw : RawTournament) : Except String Tournament :=
  match raw.title with
  | none => .error "title: field required"
  | some title =>
    let mode := raw.mode.getD "Squad"
    if !(mode == "Solo" || mode == "Duo" || mode == "Squad") then
      .error "mode: value is not a permitted literal"
    else
      let mp := raw.max_participants.getD 48
      if mp < 1 then .error "max_participants: must be at least 1"
      else if mp > 1000 then .error "max_participants: must be at most 1000"
      else
        let status := raw.status.getD "upcoming"
        if !(status == "upcoming" || status == "ongoing" || status == "completed") then
          .error "status: value is not a permitted literal"
        else
          .ok { title := title
                description := raw.description
                game := raw.game.getD "Free Fire Max"
                mode := mode
                prize_pool := raw.prize_pool
                entry_fee := raw.entry_fee
                max_participants := mp
                starts_at := raw.starts_at
                rules := raw.rules
                status := status
                banner_url := raw.banner_url
                region := match raw.region with
                          | none => some "Global"
                          | some s => some s
                share_code := raw.share_code }

/-- payload.model_dump() for a Tournament, in field declaration order. -/
def Tournament.model_dump (t : Tournament) : Doc :=
  [("title", Val.vStr t.title),
   ("description", optStr t.description),
   ("game", Val.vStr t.game),
   ("mode", Val.vStr t.mode),
   ("prize_pool", optStr t.prize_pool),
   ("entry_fee", optStr t.entry_fee),
   ("max_participants", Val.vInt t.max_participants),
   ("starts_at", optInt t.starts_at),
   ("rules", optStr t.rules),
   ("status", Val.vStr t.status),
   ("banner_url", optStr t.banner_url),
   ("region", optStr t.region),
   ("share_code", optStr t.share_code)]

/-- schemas.Participant after pydantic validation. -/
structure Participant where
  tournament_id : String
  name : String
  ign : Option String
  team_name : Option String
  contact_email : Option String
  contact_phone : Option String
  region : Option String
  notes : Option String
deriving DecidableEq, Repr

/-- A raw request body for registration before validation. -/
structure RawParticipant where
  tournament_id : Option String
  name : Option String
  ign : Option String
  team_name : Option String
  contact_email : Option String
  contact_phone : Option String
  region : Option String
  notes : Option String
deriving DecidableEq, Repr

/-- pydantic validation of a Participant body: tournament_id and name required. -/
def parseParticipant (raw : RawParticipant) : Except String Participant :=
  match raw.tournament_id with
  | none => .error "tournament_id: field required"
  | some tid =>
    match raw.name with
    | none => .error "name: field required"
    | some name =>
      .ok { tournament_id := tid, name := name, ign := raw.ign,
            team_name := raw.team_name, contact_email := raw.contact_email,
            contact_phone := raw.contact_phone, region := raw.region,
            notes := raw.notes }

/-- payload.model_dump() for a Participant, in field declaration order. -/
def Participant.model_dump (p : Participant) : Doc :=
  [("tournament_id", Val.vStr p.tournament_id),
   ("name", Val.vStr p.name),
   ("ign", optStr p.ign),
   ("team_name", optStr p.team_name),
   ("contact_email", optStr p.contact_email),
   ("contact_phone", optStr p.contact_phone),
   ("region", optStr p.region),
   ("notes", optStr p.notes)]

/-- schemas.Match after pydantic validation. -/
structure Match where
  tournament_id : String
  round_name : String
  map_name : Option String
  scheduled_at : Option Int
  room_id : Option String
  room_password : Option String
  status : String
  participants : Option (List String)
  result : Option (List (String × String))
deriving DecidableEq, Repr

/-- A raw request body for match creation before validation. -/
structure RawMatch where
  tournament_id : Option String
  round_name : Option String
  map_name : Option String
  scheduled_at : Option Int
  room_id : Option String
  room_password : Option String
  status : Option String
  participants : Option (List String)
  result : Option (List (String × String))
deriving DecidableEq, Repr

/-- pydantic validation of a Match body: tournament_id and round_name
required, status restricted to its Literal set with default scheduled. -/
def parseMatch (raw : RawMatch) : Except String Match :=
  match raw.tournament_id with
  | none => .error "tournament_id: field required"
  | some tid =>
    match raw.round_name with
    | none => .error "round_name: field required"
    | some rn =>
      let status := raw.status.getD "scheduled"
      if !(status == "scheduled" || status == "live" || status == "completed") then
        .error "status: value is not a permitted literal"
      else
        .ok { tournament_id := tid, round_name := rn, map_name := raw.map_name,
              scheduled_at := raw.scheduled_at, room_id := raw.room_id,
              room_password := raw.room_password, status := status,
              participants := raw.participants, result := raw.result }

/-- payload.model_dump() for a Match, in field declaration order. -/
def Match.model_dump (m : Match) : Doc :=
  [("tournament_id", Val.vStr m.tournament_id),
   ("round_name", Val.vStr m.round_name),
   ("map_name", optStr m.map_name),
   ("scheduled_at", optInt m.scheduled_at),
   ("room_id", optStr m.room_id),
   ("room_password", optStr m.room_password),
   ("status", Val.vStr m.status),
   ("participants", optStrList m.participants),
   ("result", optStrMap m.result)]

/-- The document store: the three collections used by main.py plus the
insertion counter from which fresh internal ids are derived. -/
structure DB where
  counter : Nat
  tournament : List Doc
  participant : List Doc
  matchColl : List Doc
deriving DecidableEq, Repr

/-- The collection registered under a name (db[name]). -/
def DB.getColl (db : DB) (name : String) : List Doc :=
  if name == "tournament" then db.tournament
  else if name == "participant" then db.participant
  else if name == "match" then db.matchColl
  else []

/-- Replace the collection registered under a name. -/
def DB.setColl (db : DB) (name : String) (l : List Doc) : DB :=
  if name == "tournament" then { db with tournament := l }
  else if name == "participant" then { db with participant := l }
  else if name == "match" then { db with matchColl := l }
  else db

/-- Modelled from the spec: database.create_document(collection, data)
inserts the record into the named collection and returns the newly
assigned internal id as a string.  The store keeps the id first. -/
def create_document (name : String) (data : Doc) (db : DB) : String × DB :=
  let o := freshOid db.counter
  let stored : Doc := ("_id", Val.vOid o) :: data
  (o, { db.setColl name (db.getColl name ++ [stored]) with counter := db.counter + 1 })

/-- Modelled from the spec: database.get_documents(collection, filter)
returns every record of the collection matching the equality filter, in
store order, with no pagination or limit. -/
def get_documents (name : String) (fil : Option (String × Val)) (db : DB) : List Doc :=
  match fil with
  | none => db.getColl name
  | some (k, v) => (db.getColl name).filter (fun d => dget d k == some v)

/-- pymongo find_one with an equality query on _id: the first match in
store order, if any. -/
def findOneById (l : List Doc) (o : String) : Option Doc :=
  l.find? (fun d => match dget d "_id" with | some (Val.vOid s) => s == o | _ => false)

/-- pymongo find_one with an equality query on share_code. -/
def findOneByCode (l : List Doc) (code : String) : Option Doc :=
  l.find? (fun d => match dget d "share_code" with | some (Val.vStr s) => s == code | _ => false)

/-- An HTTP response of the embedded handlers: a JSON document, a JSON
list, JSON null, or an error with status code and detail. -/
inductive Resp where
  | okDoc (d : Doc)
  | okList (l : List Doc)
  | okNull
  | err (status : Nat) (detail : String)
deriving DecidableEq, Repr

/-- main.to_str_id: expose the internal id under the public id field. -/
def to_str_id (obj : Doc) : Doc :=
  match dget obj "_id" with
  | some v => if v.truthy then dset (derase obj "_id") "id" (Val.vStr (pyStr v)) else obj
  | none => obj

/-- main.serialize_list. -/
def serialize_list (items : List Doc) : List Doc := items.map to_str_id

/-- main.oid: parse an ObjectId or raise HTTP 400. -/
def oid (id_str : String) : Except Resp String :=
  match parseOid id_str with
  | some o => Except.ok o
  | none => Except.error (Resp.err 400 "Invalid id")

/-- GET /api/tournaments. -/
def list_tournaments (db : DB) : Resp :=
  Resp.okList (serialize_list (get_documents "tournament" none db))

/-- POST /api/tournaments, after validation.  tokenBytes are the three
random bytes drawn by secrets.token_hex(3). -/
def create_tournament (db : DB) (payload : Tournament) (tokenBytes : List Nat) : Resp × DB :=
  let data := payload.model_dump
  let data := dset data "share_code"
    (if (pyGet data "share_code").truthy then pyGet data "share_code"
     else Val.vStr (token_hex tokenBytes))
  let res := create_document "tournament" data db
  match findOneById (res.2.getColl "tournament") res.1 with
  | some doc => (Resp.okDoc (to_str_id doc), res.2)
  | none => (Resp.okNull, res.2)

/-- POST /api/tournaments including the framework validation step. -/
def post_tournament (db : DB) (raw : RawTournament) (tokenBytes : List Nat) : Resp × DB :=
  match parseTournament raw with
  | .error e => (Resp.err 422 e, db)
  | .ok payload => create_tournament db payload tokenBytes

/-- GET /api/tournaments/tournament_id: resolve by id or share code. -/
def get_tournament (db : DB) (tournament_id : String) : Resp :=
  if tournament_id.length == 24 then
    match oid tournament_id with
    | .error e => e
    | .ok o =>
      match findOneById db.tournament o with
      | none => Resp.err 404 "Tournament not found"
      | some doc => Resp.okDoc (to_str_id doc)
  else
    match findOneByCode db.tournament tournament_id with
    | none => Resp.err 404 "Tournament not found"
    | some doc => Resp.okDoc (to_str_id doc)

/-- POST .../register, after validation: ensure the tournament exists,
overwrite the tournament_id of the body with the resolved internal id,
insert, and return the stored record. -/
def register_participant (db : DB) (tournament_id : String) (payload : Participant) :
    Resp × DB :=
  if tournament_id.length == 24 then
    match oid tournament_id with
    | .error e => (e, db)
    | .ok o =>
      match findOneById db.tournament o with
      | none => (Resp.err 404 "Tournament not found", db)
      | some t =>
        let data := dset payload.model_dump "tournament_id" (Val.vStr (pyStr (pyGet t "_id")))
        let res := create_document "participant" data db
        match findOneById (res.2.getColl "participant") res.1 with
        | some doc => (Resp.okDoc (to_str_id doc), res.2)
        | none => (Resp.okNull, res.2)
  else
    match findOneByCode db.tournament tournament_id with
    | none => (Resp.err 404 "Tournament not found", db)
    | some t =>
      let data := dset payload.model_dump "tournament_id" (Val.vStr (pyStr (pyGet t "_id")))
      let res := create_document "participant" data db
      match findOneById (res.2.getColl "participant") res.1 with
      | some doc => (Resp.okDoc (to_str_id doc), res.2)
      | none => (Resp.okNull, res.2)

/-- POST .../register including the framework validation step. -/
def post_register (db : DB) (tournament_id : String) (raw : RawParticipant) : Resp × DB :=
  match parseParticipant raw with
  | .error e => (Resp.err 422 e, db)
  | .ok payload => register_participant db tournament_id payload

/-- GET .../participants: a 24-character reference is used directly as the
stored tournament_id filter; any other reference is first mapped to the
internal id through the share code. -/
def list_participants (db : DB) (tournament_id : String) : Resp :=
  if tournament_id.length == 24 then
    Resp.okList (serialize_list
      (get_documents "participant" (some ("tournament_id", Val.vStr tournament_id)) db))
  else
    match findOneByCode db.tournament tournament_id with
    | none => Resp.err 404 "Tournament not found"
    | some t =>
      Resp.okList (serialize_list
        (get_documents "participant"
          (some ("tournament_id", Val.vStr (pyStr (pyGet t "_id")))) db))

/-- POST .../matches, after validation. -/
def create_match (db : DB) (tournament_id : String) (payload : Match) : Resp × DB :=
  if tournament_id.length == 24 then
    match oid tournament_id with
    | .error e => (e, db)
    | .ok o =>
      match findOneById db.tournament o with
      | none => (Resp.err 404 "Tournament not found", db)
      | some t =>
        let data := dset payload.model_dump "tournament_id" (Val.vStr (pyStr (pyGet t "_id")))
        let res := create_document "match" data db
        match findOneById (res.2.getColl "match") res.1 with
        | some doc => (Resp.okDoc (to_str_id doc), res.2)
        | none => (Resp.okNull, res.2)
  else
    match findOneByCode db.tournament tournament_id with
    | none => (Resp.err 404 "Tournament not found", db)
    | some t =>
      let data := dset payload.model_dump "tournament_id" (Val.vStr (pyStr (pyGet t "_id")))
      let res := create_document "match" data db
      match findOneById (res.2.getColl "match") res.1 with
      | some doc => (Resp.okDoc (to_str_id doc), res.2)
      | none => (Resp.okNull, res.2)

/-- POST .../matches including the framework validation step. -/
def post_match (db : DB) (tournament_id : String) (raw : RawMatch) : Resp × DB :=
  match parseMatch raw with
  | .error e => (Resp.err 422 e, db)
  | .ok payload => create_match db tournament_id payload

/-- GET .../matches: same shape as list_participants. -/
def list_matches (db : DB) (tournament_id : String) : Resp :=
  if tournament_id.length == 24 then
    Resp.okList (serialize_list
      (get_documents "match" (some ("tournament_id", Val.vStr tournament_id)) db))
  else
    match findOneByCode db.tournament tournament_id with
    | none => Resp.err 404 "Tournament not found"
    | some t =>
      Resp.okList (serialize_list
        (get_documents "match"
          (some ("tournament_id", Val.vStr (pyStr (pyGet t "_id")))) db))

/-- GET .../share: resolve the tournament and build the public link from
the configured frontend origin.  A non-string share_code would fail the
response model validation of the framework, reported as HTTP 500. -/
def get_share_link (db : DB) (tournament_id : String) (frontend_url : Option String) : Resp :=
  let frontend_origin := frontend_url.getD "http://localhost:3000"
  if tournament_id.length == 24 then
    match oid tournament_id with
    | .error e => e
    | .ok o =>
      match findOneById db.tournament o with
      | none => Resp.err 404 "Tournament not found"
      | some t =>
        match pyGet t "share_code" with
        | Val.vStr c =>
          Resp.okDoc [("share_url", Val.vStr (frontend_origin ++ "/?t=" ++ c)),
                      ("code", Val.vStr c)]
        | _ => Resp.err 500 "Internal Server Error"
  else
    match findOneByCode db.tournament tournament_id with
    | none => Resp.err 404 "Tournament not found"
    | some t =>
      match pyGet t "share_code" with
      | Val.vStr c =>
        Resp.okDoc [("share_url", Val.vStr (frontend_origin ++ "/?t=" ++ c)),
                    ("code", Val.vStr c)]
      | _ => Resp.err 500 "Internal Server Error"

/-- GET /api/share/code: lookup by share code only, no id fallback. -/
def get_by_share_code (db : DB) (code : String) : Resp :=
  match findOneByCode db.tournament code with
  | none => Resp.err 404 "Tournament not found"
  | some t => Resp.okDoc (to_str_id t)

/-- The single tournament resolver suggested by spec sections 4.2 and 9,
factored out of the handlers: a 24-character reference is parsed as an
internal id (HTTP 400 if unparseable) and looked up by _id; a reference of
any other length is looked up by exact share_code equality; a missing
tournament is HTTP 404. -/
def resolveRef (db : DB) (r : String) : Except Resp Doc :=
  if r.length == 24 then
    match oid r with
    | .error e => .error e
    | .ok o =>
      match findOneById db.tournament o with
      | none => .error (Resp.err 404 "Tournament not found")
      | some t => .ok t
  else
    match findOneByCode db.tournament r with
    | none => .error (Resp.err 404 "Tournament not found")
    | some t => .ok t

/-- The insertion tail of register_participant, for stating that the
handler factors into resolution followed by insertion. -/
def registerInsert (db : DB) (t : Doc) (payload : Participant) : Resp × DB :=
  let data := dset payload.model_dump "tournament_id" (Val.vStr (pyStr (pyGet t "_id")))
  let res := create_document "participant" data db
  match findOneById (res.2.getColl "participant") res.1 with
  | some doc => (Resp.okDoc (to_str_id doc), res.2)
  | none => (Resp.okNull, res.2)

/-- The insertion tail of create_match. -/
def matchInsert (db : DB) (t : Doc) (payload : Match) : Resp × DB :=
  let data := dset payload.model_dump "tournament_id" (Val.vStr (pyStr (pyGet t "_id")))
  let res := create_document "match" data db
  match findOneById (res.2.getColl "match") res.1 with
  | some doc => (Resp.okDoc (to_str_id doc), res.2)
  | none => (Resp.okNull, res.2)

/-- The response tail of get_share_link once the tournament is resolved. -/
def shareResp (frontend_origin : String) (t : Doc) : Resp :=
  match pyGet t "share_code" with
  | Val.vStr c =>
    Resp.okDoc [("share_url", Val.vStr (frontend_origin ++ "/?t=" ++ c)),
                ("code", Val.vStr c)]
  | _ => Resp.err 500 "Internal Server Error"

/-- No document of the list carries the given internal id: the freshness
the store contract guarantees for a newly assigned id. -/
def freshFor (l : List Doc) (o : String) : Bool :=
  l.all (fun d => match dget d "_id" with | some (Val.vOid s) => s != o | _ => true)

/-- Every character of the string is a hex digit. -/
def isHexString (s : String) : Bool := s.data.all isHexChar

/-- The share code kept on creation: the supplied value when truthy,
otherwise the generated token (data.get("share_code") or token_hex(3)). -/
def pickShare (v : Val) (bytes : List Nat) : Val :=
  if v.truthy then v else Val.vStr (token_hex bytes)

/-- The empty store. -/
def dbEmpty : DB := { counter := 0, tournament := [], participant := [], matchColl := [] }

/-- A stored tournament whose share code is 24 characters long but not
hex, for probing the dispatch of the resolver. -/
def tournZ : Doc :=
  [("_id", Val.vOid "0123456789abcdef01234567"),
   ("title", Val.vStr "Night Cup"),
   ("share_code", Val.vStr "zzzzzzzzzzzzzzzzzzzzzzzz")]

/-- A store holding only tournZ. -/
def dbZ : DB := { counter := 1, tournament := [tournZ], participant := [], matchColl := [] }

/-- A well-formed stored tournament with a short share code. -/
def tournC : Doc :=
  [("_id", Val.vOid "0123456789abcdef01234567"),
   ("title", Val.vStr "Squad Cup"),
   ("share_code", Val.vStr "ab12cd")]

/-- A store holding only tournC. -/
def dbC : DB := { counter := 1, tournament := [tournC], participant := [], matchColl := [] }

/-- A minimal valid raw tournament body: only title and mode supplied. -/
def rawT0 : RawTournament :=
  { title := some "Squad Cup", description := none, game := none, mode := some "Squad",
    prize_pool := none, entry_fee := none, max_participants := none, starts_at := none,
    rules := none, status := none, banner_url := none, region := none, share_code := none }

/-- A minimal valid raw registration body. -/
def rawP0 : RawParticipant :=
  { tournament_id := some "ignored", name := some "Alice", ign := none, team_name := none,
    contact_email := none, contact_phone := none, region := none, notes := none }

/-- A minimal valid raw match body. -/
def rawM0 : RawMatch :=
  { tournament_id := some "ignored", round_name := some "Finals", map_name := none,
    scheduled_at := none, room_id := none, room_password := none, status := none,
    participants := none, result := none }

/-- The validated participant obtained from rawP0. -/
def part0 : Participant :=
  { tournament_id := "ignored", name := "Alice", ign := none, team_name := none,
    contact_email := none, contact_phone := none, region := none, notes := none }

/-- The validated match obtained from rawM0. -/
def match0 : Match :=
  { tournament_id := "ignored", round_name := "Finals", map_name := none,
    scheduled_at := none, room_id := none, room_password := none, status := "scheduled",
    participants := none, result := none }

/-- The validated tournament obtained from rawT0. -/
def tourn0 : Tournament :=
  { title := "Squad Cup", description := none, game := "Free Fire Max",
    mode := "Squad", prize_pool := none, entry_fee := none, max_participants := 48,
    starts_at := none, rules := none, status := "upcoming", banner_url := none,
    region := some "Global", share_code := none }

/-- rawT0 with mode outside the allowed literal set. -/
def rawTrio : RawTournament := { rawT0 with mode := some "Trio" }

/-- rawT0 with an empty (falsy) share_code supplied. -/
def rawEmptySC : RawTournament := { rawT0 with share_code := some "" }

/-- The validated tournament obtained from rawEmptySC. -/
def tourn0sc : Tournament := { tourn0 with share_code := some "" }

/-- A stored participant that references a tournament id no tournament
has: the store can hold such orphans since integrity is only checked at
creation time. -/
def partOrphan : Doc :=
  [("_id", Val.vOid "bbbbbbbbbbbbbbbbbbbbbbbb"),
   ("tournament_id", Val.vStr "aaaaaaaaaaaaaaaaaaaaaaaa"),
   ("name", Val.vStr "Ghost")]

/-- A store with an orphan participant and no tournaments at all. -/
def dbOrphan : DB :=
  { counter := 2, tournament := [], participant := [partOrphan], matchColl := [] }

theorem dget_dset_self (d : Doc) (k : String) (v : Val) : dget (dset d k v) k = some v := by
  induction d with
  | nil => simp [dset, dget]
  | cons p rest ih =>
    by_cases h : (p.1 == k) = true
    · simp [dset, h, dget]
    · simp [dset, h, dget, ih]

theorem dget_dset_ne (d : Doc) (k k2 : String) (v : Val) (h : (k == k2) = false) :
    dget (dset d k v) k2 = dget d k2 := by
  induction d with
  | nil => simp [dset, dget, h]
  | cons p rest ih =>
    by_cases h2 : (p.1 == k) = true
    · have h3 : (p.1 == k2) = false := by
        have : p.1 = k := by simpa using h2
        simpa [this] using h
      simp [dset, h2, dget, h, h3]
    · simp [dset, h2, dget, ih]

theorem dget_derase_self (d : Doc) (k : String) : dget (derase d k) k = none := by
  induction d with
  | nil => simp [derase, dget]
  | cons p rest ih =>
    by_cases h : (p.1 == k) = true
    · simp [derase, h, ih]
    · simp [derase, h, dget, ih]

theorem dget_derase_ne (d : Doc) (k k2 : String) (h : (k == k2) = false) :
    dget (derase d k) k2 = dget d k2 := by
  induction d with
  | nil => simp [derase, dget]
  | cons p rest ih =>
    by_cases h2 : (p.1 == k) = true
    · have h3 : (p.1 == k2) = false := by
        have : p.1 = k := by simpa using h2
        simpa [this] using h
      simp [derase, h2, dget, h3, ih]
    · simp [derase, h2, dget, ih]

theorem find_eq_of_mem_unique {α : Type} (p : α → Bool) (l : List α) (x : α)
    (hx : x ∈ l) (hpx : p x = true)
    (hu : ∀ y ∈ l, p y = true → y = x) : l.find? p = some x := by
  induction l with
  | nil => cases hx
  | cons a rest ih =>
    by_cases ha : p a = true
    · have hax : a = x := hu a (List.mem_cons_self a rest) ha
      subst hax
      simp [List.find?_cons_of_pos _ ha]
    · have hne : x ≠ a := fun hxa => ha (hxa ▸ hpx)
      have hx2 : x ∈ rest := by
        rcases List.mem_cons.mp hx with h | h
        · exact absurd h hne
        · exact h
      rw [List.find?_cons_of_neg _ (by simpa using ha)]
      exact ih hx2 (fun y hy hp => hu y (List.mem_cons_of_mem _ hy) hp)

theorem getColl_tournament (db : DB) : db.getColl "tournament" = db.tournament := rfl

theorem getColl_participant (db : DB) : db.getColl "participant" = db.participant := rfl

theorem getColl_match (db : DB) : db.getColl "match" = db.matchColl := rfl

theorem setColl_tournament (db : DB) (l : List Doc) :
    db.setColl "tournament" l = { db with tournament := l } := rfl

theorem setColl_participant (db : DB) (l : List Doc) :
    db.setColl "participant" l = { db with participant := l } := rfl

theorem setColl_match (db : DB) (l : List Doc) :
    db.setColl "match" l = { db with matchColl := l } := rfl

theorem dump_share_code (t : Tournament) :
    pyGet t.model_dump "share_code" = optStr t.share_code := rfl

theorem parseOid_some_length (s o : String) (h : parseOid s = some o) : s.length = 24 := by
  unfold parseOid at h
  split at h
  · rename_i hc
    have hc2 := (Bool.and_eq_true _ _).mp hc
    simpa using hc2.1
  · cases h

theorem freshOid_length (n : Nat) : (freshOid n).length = 24 := by
  show ((List.range 24).reverse.map (fun k => Nat.digitChar (n / 16 ^ k % 16))).length = 24
  simp

theorem freshOid_ne_empty (n : Nat) : freshOid n ≠ "" := by
  intro h
  have h2 := congrArg String.length h
  rw [freshOid_length] at h2
  simp at h2

theorem digitChar_hex (m : Nat) (hm : m < 16) : isHexChar (Nat.digitChar m) = true := by
  interval_cases m <;> decide

theorem token_hex_length (bytes : List Nat) : (token_hex bytes).length = 2 * bytes.length := by
  show (bytes.foldr
    (fun b acc => Nat.digitChar (b / 16 % 16) :: Nat.digitChar (b % 16) :: acc) []).length
      = 2 * bytes.length
  induction bytes with
  | nil => rfl
  | cons b rest ih => simp [List.foldr, ih]; omega

theorem token_hex_hex (bytes : List Nat) : isHexString (token_hex bytes) = true := by
  show (bytes.foldr
    (fun b acc => Nat.digitChar (b / 16 % 16) :: Nat.digitChar (b % 16) :: acc) []).all
      isHexChar = true
  induction bytes with
  | nil => rfl
  | cons b rest ih =>
    simp only [List.foldr, List.all_cons, ih, Bool.and_true]
    rw [digitChar_hex _ (Nat.mod_lt _ (by norm_num)),
        digitChar_hex _ (Nat.mod_lt _ (by norm_num))]
    rfl

theorem ne_empty_of_length_pos (s : String) (h : s.length ≠ 0) : s ≠ "" := by
  intro h2
  subst h2
  exact h rfl

theorem findOneById_append_fresh (l : List Doc) (d : Doc) (o : String)
    (hf : freshFor l o = true) (hd : dget d "_id" = some (Val.vOid o)) :
    findOneById (l ++ [d]) o = some d := by
  unfold findOneById
  rw [List.find?_append]
  have h1 : l.find? (fun d => match dget d "_id" with
      | some (Val.vOid s) => s == o | _ => false) = none := by
    rw [List.find?_eq_none]
    intro x hx
    have hall := (List.all_eq_true.mp hf) x hx
    revert hall
    cases dget x "_id" with
    | none => simp
    | some v => cases v <;> simp
  rw [h1]
  simp [List.find?, hd]

theorem get_tournament_resolve (db : DB) (r : String) :
    get_tournament db r =
      (match resolveRef db r with
       | .error e => e
       | .ok t => Resp.okDoc (to_str_id t)) := by
  by_cases h : (r.length == 24) = true
  · cases ho : oid r with
    | error e => simp [get_tournament, resolveRef, h, ho]
    | ok o =>
      cases hf : findOneById db.tournament o with
      | none => simp [get_tournament, resolveRef, h, ho, hf]
      | some t => simp [get_tournament, resolveRef, h, ho, hf]
  · have h2 : (r.length == 24) = false := by simpa using h
    cases hf : findOneByCode db.tournament r with
    | none => simp [get_tournament, resolveRef, h2, hf]
    | some t => simp [get_tournament, resolveRef, h2, hf]

theorem register_participant_resolve (db : DB) (r : String) (p : Participant) :
    register_participant db r p =
      (match resolveRef db r with
       | .error e => (e, db)
       | .ok t => registerInsert db t p) := by
  by_cases h : (r.length == 24) = true
  · cases ho : oid r with
    | error e => simp [register_participant, resolveRef, h, ho]
    | ok o =>
      cases hf : findOneById db.tournament o with
      | none => simp [register_participant, resolveRef, h, ho, hf]
      | some t => simp [register_participant, resolveRef, registerInsert, h, ho, hf]
  · have h2 : (r.length == 24) = false := by simpa using h
    cases hf : findOneByCode db.tournament r with
    | none => simp [register_participant, resolveRef, h2, hf]
    | some t => simp [register_participant, resolveRef, registerInsert, h2, hf]

theorem create_match_resolve (db : DB) (r : String) (m : Match) :
    create_match db r m =
      (match resolveRef db r with
       | .error e => (e, db)
       | .ok t => matchInsert db t m) := by
  by_cases h : (r.length == 24) = true
  · cases ho : oid r with
    | error e => simp [create_match, resolveRef, h, ho]
    | ok o =>
      cases hf : findOneById db.tournament o with
      | none => simp [create_match, resolveRef, h, ho, hf]
      | some t => simp [create_match, resolveRef, matchInsert, h, ho, hf]
  · have h2 : (r.length == 24) = false := by simpa using h
    cases hf : findOneByCode db.tournament r with
    | none => simp [create_match, resolveRef, h2, hf]
    | some t => simp [create_match, resolveRef, matchInsert, h2, hf]

theorem get_share_link_resolve (db : DB) (r : String) (fu : Option String) :
    get_share_link db r fu =
      (match resolveRef db r with
       | .error e => e
       | .ok t => shareResp (fu.getD "http://localhost:3000") t) := by
  by_cases h : (r.length == 24) = true
  · cases ho : oid r with
    | error e => simp [get_share_link, resolveRef, h, ho]
    | ok o =>
      cases hf : findOneById db.tournament o with
      | none => simp [get_share_link, resolveRef, h, ho, hf]
      | some t =>
        cases hc : pyGet t "share_code" <;>
          simp [get_share_link, resolveRef, shareResp, h, ho, hf, hc]
  · have h2 : (r.length == 24) = false := by simpa using h
    cases hf : findOneByCode db.tournament r with
    | none => simp [get_share_link, resolveRef, h2, hf]
    | some t =>
      cases hc : pyGet t "share_code" <;>
        simp [get_share_link, resolveRef, shareResp, h2, hf, hc]

theorem list_participants_resolve_code (db : DB) (r : String)
    (h : (r.length == 24) = false) :
    list_participants db r =
      (match resolveRef db r with
       | .error e => e
       | .ok t => Resp.okList (serialize_list (get_documents "participant"
           (some ("tournament_id", Val.vStr (pyStr (pyGet t "_id")))) db))) := by
  cases hf : findOneByCode db.tournament r with
  | none => simp [list_participants, resolveRef, h, hf]
  | some t => simp [list_participants, resolveRef, h, hf]

theorem list_matches_resolve_code (db : DB) (r : String)
    (h : (r.length == 24) = false) :
    list_matches db r =
      (match resolveRef db r with
       | .error e => e
       | .ok t => Resp.okList (serialize_list (get_documents "match"
           (some ("tournament_id", Val.vStr (pyStr (pyGet t "_id")))) db))) := by
  cases hf : findOneByCode db.tournament r with
  | none => simp [list_matches, resolveRef, h, hf]
  | some t => simp [list_matches, resolveRef, h, hf]

theorem parseTournament_ok_fields (raw : RawTournament) (t : Tournament)
    (h : parseTournament raw = .ok t) :
    t.status = raw.status.getD "upcoming" ∧
    t.max_participants = raw.max_participants.getD 48 ∧
    t.share_code = raw.share_code ∧
    t.mode = raw.mode.getD "Squad" := by
  cases hT : raw.title with
  | none => simp [parseTournament, hT] at h
  | some ti =>
    simp only [parseTournament, hT] at h
    split at h
    · simp at h
    · split at h
      · simp at h
      · split at h
        · simp at h
        · split at h
          · simp at h
          · injection h with h2
            subst h2
            exact ⟨rfl, rfl, rfl, rfl⟩

theorem create_tournament_run (db : DB) (t : Tournament) (bytes : List Nat)
    (hfresh : freshFor db.tournament (freshOid db.counter) = true) :
    create_tournament db t bytes =
      (Resp.okDoc (to_str_id (("_id", Val.vOid (freshOid db.counter)) ::
         dset t.model_dump "share_code" (pickShare (optStr t.share_code) bytes))),
       { db with counter := db.counter + 1,
                 tournament := db.tournament ++ [("_id", Val.vOid (freshOid db.counter)) ::
                   dset t.model_dump "share_code" (pickShare (optStr t.share_code) bytes)] }) := by
  have hfind := findOneById_append_fresh db.tournament
    (("_id", Val.vOid (freshOid db.counter)) ::
      dset t.model_dump "share_code" (pickShare (optStr t.share_code) bytes))
    (freshOid db.counter) hfresh rfl
  simp only [pickShare] at hfind
  simp [create_tournament, create_document, getColl_tournament, setColl_tournament,
        dump_share_code, pickShare, hfind]

theorem registerInsert_run (db : DB) (t : Doc) (p : Participant)
    (hfresh : freshFor db.participant (freshOid db.counter) = true) :
    registerInsert db t p =
      (Resp.okDoc (to_str_id (("_id", Val.vOid (freshOid db.counter)) ::
         dset p.model_dump "tournament_id" (Val.vStr (pyStr (pyGet t "_id"))))),
       { db with counter := db.counter + 1,
                 participant := db.participant ++ [("_id", Val.vOid (freshOid db.counter)) ::
                   dset p.model_dump "tournament_id" (Val.vStr (pyStr (pyGet t "_id")))] }) := by
  have hfind := findOneById_append_fresh db.participant
    (("_id", Val.vOid (freshOid db.counter)) ::
      dset p.model_dump "tournament_id" (Val.vStr (pyStr (pyGet t "_id"))))
    (freshOid db.counter) hfresh rfl
  simp [registerInsert, create_document, getColl_participant, setColl_participant, hfind]

theorem matchInsert_run (db : DB) (t : Doc) (m : Match)
    (hfresh : freshFor db.matchColl (freshOid db.counter) = true) :
    matchInsert db t m =
      (Resp.okDoc (to_str_id (("_id", Val.vOid (freshOid db.counter)) ::
         dset m.model_dump "tournament_id" (Val.vStr (pyStr (pyGet t "_id"))))),
       { db with counter := db.counter + 1,
                 matchColl := db.matchColl ++ [("_id", Val.vOid (freshOid db.counter)) ::
                   dset m.model_dump "tournament_id" (Val.vStr (pyStr (pyGet t "_id")))] }) := by
  have hfind := findOneById_append_fresh db.matchColl
    (("_id", Val.vOid (freshOid db.counter)) ::
      dset m.model_dump "tournament_id" (Val.vStr (pyStr (pyGet t "_id"))))
    (freshOid db.counter) hfresh rfl
  simp [matchInsert, create_document, getColl_match, setColl_match, hfind]

theorem create_tournament_state (db : DB) (t : Tournament) (bytes : List Nat) :
    (create_tournament db t bytes).2 =
      { db with counter := db.counter + 1,
                tournament := db.tournament ++ [("_id", Val.vOid (freshOid db.counter)) ::
                  dset t.model_dump "share_code" (pickShare (optStr t.share_code) bytes)] } := by
  simp only [create_tournament, create_document, getColl_tournament, setColl_tournament,
             dump_share_code, pickShare]
  split <;> rfl

theorem registerInsert_state (db : DB) (t : Doc) (p : Participant) :
    (registerInsert db t p).2 =
      { db with counter := db.counter + 1,
                participant := db.participant ++ [("_id", Val.vOid (freshOid db.counter)) ::
                  dset p.model_dump "tournament_id" (Val.vStr (pyStr (pyGet t "_id")))] } := by
  simp only [registerInsert, create_document, getColl_participant, setColl_participant]
  split <;> rfl

theorem matchInsert_state (db : DB) (t : Doc) (m : Match) :
    (matchInsert db t m).2 =
      { db with counter := db.counter + 1,
                matchColl := db.matchColl ++ [("_id", Val.vOid (freshOid db.counter)) ::
                  dset m.model_dump "tournament_id" (Val.vStr (pyStr (pyGet t "_id")))] } := by
  simp only [matchInsert, create_document, getColl_match, setColl_match]
  split <;> rfl

theorem dump_status (t : Tournament) :
    dget t.model_dump "status" = some (Val.vStr t.status) := rfl

theorem dump_mp (t : Tournament) :
    dget t.model_dump "max_participants" = some (Val.vInt t.max_participants) := rfl

theorem to_str_id_oid (d : Doc) (s : String) (h : dget d "_id" = some (Val.vOid s)) :
    to_str_id d = dset (derase d "_id") "id" (Val.vStr s) := by
  simp [to_str_id, h, Val.truthy, pyStr]

theorem to_str_id_fields (d : Doc) (s : String) (h : dget d "_id" = some (Val.vOid s)) :
    dget (to_str_id d) "id" = some (Val.vStr s) ∧ dget (to_str_id d) "_id" = none := by
  rw [to_str_id_oid d s h]
  refine ⟨dget_dset_self _ _ _, ?_⟩
  rw [dget_dset_ne _ _ _ _ (by rfl)]
  exact dget_derase_self _ _

theorem dget_created (base : Doc) (nid : String) (key : String)
    (h1 : (("id" : String) == key) = false) (h2 : (("_id" : String) == key) = false) :
    dget (to_str_id (("_id", Val.vOid nid) :: base)) key = dget base key := by
  rw [to_str_id_oid (("_id", Val.vOid nid) :: base) nid rfl]
  rw [dget_dset_ne _ _ _ _ h1, dget_derase_ne _ _ _ h2]
  simp [dget, h2]

theorem dget_created_id (base : Doc) (nid : String) :
    dget (to_str_id (("_id", Val.vOid nid) :: base)) "id" = some (Val.vStr nid) := by
  rw [to_str_id_oid (("_id", Val.vOid nid) :: base) nid rfl]
  exact dget_dset_self _ _ _

theorem idMatches_eq (d : Doc) (o : String) :
    ((match dget d "_id" with | some (Val.vOid s) => s == o | _ => false) = true)
      ↔ dget d "_id" = some (Val.vOid o) := by
  cases hd : dget d "_id" with
  | none => simp
  | some v => cases v <;> simp

theorem codeMatches_eq (d : Doc) (c : String) :
    ((match dget d "share_code" with | some (Val.vStr s) => s == c | _ => false) = true)
      ↔ dget d "share_code" = some (Val.vStr c) := by
  cases hd : dget d "share_code" with
  | none => simp
  | some v => cases v <;> simp

/-- C1: counterexample to the claim as stated.  The reference string of 24
z characters is not made of hex characters, so under the claimed rule it
should be resolved by exact share_code match; the store holds a tournament
whose share_code is exactly that string, yet get_tournament answers
HTTP 400 instead of returning the record, because the handlers dispatch on
the length of the reference alone before ObjectId parsing. -/
theorem c1_counterexample :
    isHexString "zzzzzzzzzzzzzzzzzzzzzzzz" = false ∧
    ("zzzzzzzzzzzzzzzzzzzzzzzz" : String).length = 24 ∧
    findOneByCode dbZ.tournament "zzzzzzzzzzzzzzzzzzzzzzzz" = some tournZ ∧
    get_tournament dbZ "zzzzzzzzzzzzzzzzzzzzzzzz" = Resp.err 400 "Invalid id" := by
  refine ⟨by decide, by decide, rfl, rfl⟩

/-- C1 (amended): every endpoint taking a tournament_id path parameter
dispatches on the length of the reference alone.  A reference of any
length other than 24 is resolved by exact equality match on the
share_code field in all six endpoints.  A reference of length 24 is
treated as an internal id: fetch, register, create match and share parse
it (HTTP 400 when unparseable) and look the tournament up by _id, while
the two list endpoints use it directly as the tournament_id filter of the
dependent records without consulting the tournament collection. -/
theorem c1_resolution_rule (db : DB) (r : String) (p : Participant) (m : Match)
    (fu : Option String) :
    (r.length ≠ 24 →
      get_tournament db r =
        (match findOneByCode db.tournament r with
         | none => Resp.err 404 "Tournament not found"
         | some t => Resp.okDoc (to_str_id t)) ∧
      register_participant db r p =
        (match findOneByCode db.tournament r with
         | none => (Resp.err 404 "Tournament not found", db)
         | some t => registerInsert db t p) ∧
      create_match db r m =
        (match findOneByCode db.tournament r with
         | none => (Resp.err 404 "Tournament not found", db)
         | some t => matchInsert db t m) ∧
      get_share_link db r fu =
        (match findOneByCode db.tournament r with
         | none => Resp.err 404 "Tournament not found"
         | some t => shareResp (fu.getD "http://localhost:3000") t) ∧
      list_participants db r =
        (match findOneByCode db.tournament r with
         | none => Resp.err 404 "Tournament not found"
         | some t => Resp.okList (serialize_list (get_documents "participant"
             (some ("tournament_id", Val.vStr (pyStr (pyGet t "_id")))) db))) ∧
      list_matches db r =
        (match findOneByCode db.tournament r with
         | none => Resp.err 404 "Tournament not found"
         | some t => Resp.okList (serialize_list (get_documents "match"
             (some ("tournament_id", Val.vStr (pyStr (pyGet t "_id")))) db)))) ∧
    (r.length = 24 →
      (∀ o, parseOid r = some o →
        get_tournament db r =
          (match findOneById db.tournament o with
           | none => Resp.err 404 "Tournament not found"
           | some t => Resp.okDoc (to_str_id t)) ∧
        register_participant db r p =
          (match findOneById db.tournament o with
           | none => (Resp.err 404 "Tournament not found", db)
           | some t => registerInsert db t p) ∧
        create_match db r m =
          (match findOneById db.tournament o with
           | none => (Resp.err 404 "Tournament not found", db)
           | some t => matchInsert db t m) ∧
        get_share_link db r fu =
          (match findOneById db.tournament o with
           | none => Resp.err 404 "Tournament not found"
           | some t => shareResp (fu.getD "http://localhost:3000") t)) ∧
      (parseOid r = none →
        get_tournament db r = Resp.err 400 "Invalid id" ∧
        register_participant db r p = (Resp.err 400 "Invalid id", db) ∧
        create_match db r m = (Resp.err 400 "Invalid id", db) ∧
        get_share_link db r fu = Resp.err 400 "Invalid id") ∧
      list_participants db r = Resp.okList (serialize_list (get_documents "participant"
        (some ("tournament_id", Val.vStr r)) db)) ∧
      list_matches db r = Resp.okList (serialize_list (get_documents "match"
        (some ("tournament_id", Val.vStr r)) db))) := by
  constructor
  · intro hne
    have hlen : (r.length == 24) = false := by
      cases h : (r.length == 24)
      · rfl
      · exact absurd (by simpa using h) hne
    refine ⟨?_, ?_, ?_, ?_, ?_, ?_⟩
    · rw [get_tournament_resolve]
      cases hf : findOneByCode db.tournament r <;> simp [resolveRef, hlen, hf]
    · rw [register_participant_resolve]
      cases hf : findOneByCode db.tournament r <;> simp [resolveRef, hlen, hf]
    · rw [create_match_resolve]
      cases hf : findOneByCode db.tournament r <;> simp [resolveRef, hlen, hf]
    · rw [get_share_link_resolve]
      cases hf : findOneByCode db.tournament r <;> simp [resolveRef, hlen, hf]
    · rw [list_participants_resolve_code db r hlen]
      cases hf : findOneByCode db.tournament r <;> simp [resolveRef, hlen, hf]
    · rw [list_matches_resolve_code db r hlen]
      cases hf : findOneByCode db.tournament r <;> simp [resolveRef, hlen, hf]
  · intro h24
    have hlen : (r.length == 24) = true := by simp [h24]
    refine ⟨?_, ?_, ?_, ?_⟩
    · intro o ho
      have hoid : oid r = Except.ok o := by simp [oid, ho]
      refine ⟨?_, ?_, ?_, ?_⟩
      · rw [get_tournament_resolve]
        cases hf : findOneById db.tournament o <;> simp [resolveRef, hlen, hoid, hf]
      · rw [register_participant_resolve]
        cases hf : findOneById db.tournament o <;> simp [resolveRef, hlen, hoid, hf]
      · rw [create_match_resolve]
        cases hf : findOneById db.tournament o <;> simp [resolveRef, hlen, hoid, hf]
      · rw [get_share_link_resolve]
        cases hf : findOneById db.tournament o <;> simp [resolveRef, hlen, hoid, hf]
    · intro ho
      have hoid : oid r = Except.error (Resp.err 400 "Invalid id") := by simp [oid, ho]
      refine ⟨?_, ?_, ?_, ?_⟩
      · rw [get_tournament_resolve]; simp [resolveRef, hlen, hoid]
      · rw [register_participant_resolve]; simp [resolveRef, hlen, hoid]
      · rw [create_match_resolve]; simp [resolveRef, hlen, hoid]
      · rw [get_share_link_resolve]; simp [resolveRef, hlen, hoid]
    · simp [list_participants, hlen]
    · simp [list_matches, hlen]

/-- Witness for C1 (amended) at concrete inputs: the short reference
ab12cd is resolved by share_code equality and returns the stored record
serialized. -/
theorem c1_resolution_rule_witness :
    get_tournament dbC "ab12cd" = Resp.okDoc (to_str_id tournC) := by
  have h := ((c1_resolution_rule dbC "ab12cd" part0 match0 none).1 (by decide)).1
  rw [h]
  rfl

/-- C3: for a stored tournament whose canonical 24-hex internal id is
unique among tournaments and whose share code is unique and not of length
24, fetching by internal id and fetching by share code return the same
serialized record. -/
theorem c3_dual_key_same_record (db : DB) (T : Doc) (i c : String)
    (hmem : T ∈ db.tournament)
    (hid : dget T "_id" = some (Val.vOid i))
    (hcanon : parseOid i = some i)
    (hidu : ∀ T2 ∈ db.tournament, dget T2 "_id" = some (Val.vOid i) → T2 = T)
    (hsc : dget T "share_code" = some (Val.vStr c))
    (hclen : c.length ≠ 24)
    (hscu : ∀ T2 ∈ db.tournament, dget T2 "share_code" = some (Val.vStr c) → T2 = T) :
    get_tournament db i = Resp.okDoc (to_str_id T) ∧
    get_tournament db c = get_tournament db i := by
  have hlen : i.length = 24 := parseOid_some_length i i hcanon
  have h24 : (i.length == 24) = true := by simp [hlen]
  have hoid : oid i = Except.ok i := by simp [oid, hcanon]
  have hfid : findOneById db.tournament i = some T := by
    unfold findOneById
    exact find_eq_of_mem_unique _ _ T hmem ((idMatches_eq T i).mpr hid)
      (fun y hy hp => hidu y hy ((idMatches_eq y i).mp hp))
  have hc24 : (c.length == 24) = false := by
    cases h : (c.length == 24)
    · rfl
    · exact absurd (by simpa using h) hclen
  have hfc : findOneByCode db.tournament c = some T := by
    unfold findOneByCode
    exact find_eq_of_mem_unique _ _ T hmem ((codeMatches_eq T c).mpr hsc)
      (fun y hy hp => hscu y hy ((codeMatches_eq y c).mp hp))
  constructor
  · simp [get_tournament, h24, hoid, hfid]
  · simp [get_tournament, h24, hc24, hoid, hfid, hfc]

/-- Witness for C3: on the one-tournament store dbC both lookups return
the serialized tournC. -/
theorem c3_dual_key_same_record_witness :
    get_tournament dbC "0123456789abcdef01234567" = Resp.okDoc (to_str_id tournC) ∧
    get_tournament dbC "ab12cd" = get_tournament dbC "0123456789abcdef01234567" :=
  c3_dual_key_same_record dbC tournC "0123456789abcdef01234567" "ab12cd"
    (by decide) (by decide) (by decide)
    (by intro T2 h2 _; rcases List.mem_singleton.mp h2 with rfl; rfl)
    (by decide) (by decide)
    (by intro T2 h2 _; rcases List.mem_singleton.mp h2 with rfl; rfl)

/-- C2: the claim says every dependent endpoint answers NotFound for a
tournament reference matching no tournament.  The list endpoints break it:
for a 24-character reference they never consult the tournament collection,
so with no tournament whose id is aaaaaaaaaaaaaaaaaaaaaaaa they answer
HTTP 200 with a list (even a non-empty one for an orphaned participant)
while the register endpoint answers 404 on the very same reference. -/
theorem c2_lists_skip_existence_check :
    findOneById dbEmpty.tournament "aaaaaaaaaaaaaaaaaaaaaaaa" = none ∧
    list_participants dbEmpty "aaaaaaaaaaaaaaaaaaaaaaaa" = Resp.okList [] ∧
    list_matches dbEmpty "aaaaaaaaaaaaaaaaaaaaaaaa" = Resp.okList [] ∧
    list_participants dbEmpty "aaaaaaaaaaaaaaaaaaaaaaaa" ≠ Resp.err 404 "Tournament not found" ∧
    register_participant dbEmpty "aaaaaaaaaaaaaaaaaaaaaaaa" part0 =
      (Resp.err 404 "Tournament not found", dbEmpty) ∧
    findOneById dbOrphan.tournament "aaaaaaaaaaaaaaaaaaaaaaaa" = none ∧
    list_participants dbOrphan "aaaaaaaaaaaaaaaaaaaaaaaa" =
      Resp.okList [to_str_id partOrphan] := by
  refine ⟨rfl, rfl, rfl, ?_, rfl, rfl, rfl⟩
  decide

/-- C6: tournament resolution (the oid helper inside get_tournament)
distinguishes its two failure conditions: a 24-character reference the
store cannot parse as an ObjectId yields HTTP 400, while a parseable id or
a share-code-shaped reference matching no tournament yields HTTP 404; in
particular the all-zero well-formed id yields NotFound, never BadRequest. -/
theorem c6_error_taxonomy (db : DB) (r : String) :
    (r.length = 24 → parseOid r = none → get_tournament db r = Resp.err 400 "Invalid id") ∧
    (∀ o, parseOid r = some o → findOneById db.tournament o = none →
      get_tournament db r = Resp.err 404 "Tournament not found") ∧
    (r.length ≠ 24 → findOneByCode db.tournament r = none →
      get_tournament db r = Resp.err 404 "Tournament not found") ∧
    (findOneById db.tournament "000000000000000000000000" = none →
      get_tournament db "000000000000000000000000" = Resp.err 404 "Tournament not found" ∧
      ∀ s, get_tournament db "000000000000000000000000" ≠ Resp.err 400 s) := by
  refine ⟨?_, ?_, ?_, ?_⟩
  · intro hlen ho
    have h24 : (r.length == 24) = true := by simp [hlen]
    simp [get_tournament, h24, oid, ho]
  · intro o ho hfind
    have hlen : r.length = 24 := parseOid_some_length r o ho
    have h24 : (r.length == 24) = true := by simp [hlen]
    simp [get_tournament, h24, oid, ho, hfind]
  · intro hne hfind
    have h24 : (r.length == 24) = false := by
      cases h : (r.length == 24)
      · rfl
      · exact absurd (by simpa using h) hne
    simp [get_tournament, h24, hfind]
  · intro hfind
    have hz : parseOid "000000000000000000000000" = some "000000000000000000000000" := by decide
    have h24 : ((("000000000000000000000000" : String).length) == 24) = true := by decide
    have hgz : get_tournament db "000000000000000000000000" =
        Resp.err 404 "Tournament not found" := by
      simp [get_tournament, h24, oid, hz, hfind]
    exact ⟨hgz, fun s hs => by rw [hgz] at hs; simp at hs⟩

/-- Witness for C6 at concrete inputs: on the empty store the all-zero
well-formed id yields 404, and an id-length reference with a non-hex
character yields 400. -/
theorem c6_error_taxonomy_witness :
    get_tournament dbEmpty "000000000000000000000000" = Resp.err 404 "Tournament not found" ∧
    get_tournament dbEmpty "gggggggggggggggggggggggg" = Resp.err 400 "Invalid id" :=
  ⟨((c6_error_taxonomy dbEmpty "000000000000000000000000").2.2.2 rfl).1,
   (c6_error_taxonomy dbEmpty "gggggggggggggggggggggggg").1 (by decide) (by decide)⟩

/-- C7: a record whose store-assigned _id is an ObjectId is serialized
with the public string field id and without the internal _id field, both
for a single record (to_str_id) and for every element of a serialized
list; the tournament listing is exactly such a serialized list. -/
theorem c7_serialization (d : Doc) (s : String) (items : List Doc) (db : DB) :
    (dget d "_id" = some (Val.vOid s) →
      dget (to_str_id d) "id" = some (Val.vStr s) ∧ dget (to_str_id d) "_id" = none) ∧
    ((∀ e ∈ items, ∃ s2, dget e "_id" = some (Val.vOid s2)) →
      ∀ e2 ∈ serialize_list items,
        (∃ s2, dget e2 "id" = some (Val.vStr s2)) ∧ dget e2 "_id" = none) ∧
    list_tournaments db = Resp.okList (serialize_list (get_documents "tournament" none db)) := by
  refine ⟨fun h => to_str_id_fields d s h, ?_, rfl⟩
  intro hall e2 he2
  rcases List.mem_map.mp he2 with ⟨e, he, rfl⟩
  rcases hall e he with ⟨s2, hs2⟩
  have hf := to_str_id_fields e s2 hs2
  exact ⟨⟨s2, hf.1⟩, hf.2⟩

/-- Witness for C7: serializing the stored tournament tournC yields the
public id and drops _id. -/
theorem c7_serialization_witness :
    dget (to_str_id tournC) "id" = some (Val.vStr "0123456789abcdef01234567") ∧
    dget (to_str_id tournC) "_id" = none :=
  (c7_serialization tournC "0123456789abcdef01234567" [] dbEmpty).1 rfl

/-- C9: the three write handlers only ever append a single new document to
their own collection (or leave the store unchanged on failure) and never
touch the other collections; read handlers take the store by value and
return only a response.  Hence no existing document, and in particular no
tournament id or share_code assigned at creation, is ever updated or
deleted by any later request. -/
theorem c9_append_only (db : DB) (raw : RawTournament) (rawP : RawParticipant)
    (rawM : RawMatch) (r : String) (bytes : List Nat) :
    ((post_tournament db raw bytes).2.participant = db.participant ∧
     (post_tournament db raw bytes).2.matchColl = db.matchColl ∧
     ((post_tournament db raw bytes).2.tournament = db.tournament ∨
      ∃ d, (post_tournament db raw bytes).2.tournament = db.tournament ++ [d])) ∧
    ((post_register db r rawP).2.tournament = db.tournament ∧
     (post_register db r rawP).2.matchColl = db.matchColl ∧
     ((post_register db r rawP).2.participant = db.participant ∨
      ∃ d, (post_register db r rawP).2.participant = db.participant ++ [d])) ∧
    ((post_match db r rawM).2.tournament = db.tournament ∧
     (post_match db r rawM).2.participant = db.participant ∧
     ((post_match db r rawM).2.matchColl = db.matchColl ∨
      ∃ d, (post_match db r rawM).2.matchColl = db.matchColl ++ [d])) := by
  refine ⟨?_, ?_, ?_⟩
  · cases hp : parseTournament raw with
    | error e => simp [post_tournament, hp]
    | ok t =>
      simp only [post_tournament, hp, create_tournament_state]
      exact ⟨by trivial, by trivial, Or.inr ⟨_, rfl⟩⟩
  · cases hp : parseParticipant rawP with
    | error e => simp [post_register, hp]
    | ok p =>
      simp only [post_register, hp, register_participant_resolve]
      cases hres : resolveRef db r with
      | error e => simp
      | ok t =>
        simp only [registerInsert_state]
        exact ⟨by trivial, by trivial, Or.inr ⟨_, rfl⟩⟩
  · cases hp : parseMatch rawM with
    | error e => simp [post_match, hp]
    | ok m =>
      simp only [post_match, hp, create_match_resolve]
      cases hres : resolveRef db r with
      | error e => simp
      | ok t =>
        simp only [matchInsert_state]
        exact ⟨by trivial, by trivial, Or.inr ⟨_, rfl⟩⟩

/-- C5: when the tournament reference resolves to a stored tournament
whose internal id is i, the participant and match records created under
it — both the response document and the stored document — carry
tournament_id equal to the string form of i, whatever tournament_id the
request body supplied and however the path referenced the tournament. -/
theorem c5_tournament_id_overwritten (db : DB) (r : String) (p : Participant) (m : Match)
    (t : Doc) (i : String)
    (hres : resolveRef db r = .ok t)
    (hid : dget t "_id" = some (Val.vOid i))
    (hfp : freshFor db.participant (freshOid db.counter) = true)
    (hfm : freshFor db.matchColl (freshOid db.counter) = true) :
    (∃ d, (register_participant db r p).1 = Resp.okDoc d ∧
          dget d "tournament_id" = some (Val.vStr i)) ∧
    (∃ d0, (register_participant db r p).2.participant = db.participant ++ [d0] ∧
           dget d0 "tournament_id" = some (Val.vStr i)) ∧
    (∃ d, (create_match db r m).1 = Resp.okDoc d ∧
          dget d "tournament_id" = some (Val.vStr i)) ∧
    (∃ d0, (create_match db r m).2.matchColl = db.matchColl ++ [d0] ∧
           dget d0 "tournament_id" = some (Val.vStr i)) := by
  have hpg : Val.vStr (pyStr (pyGet t "_id")) = Val.vStr i := by simp [pyGet, hid, pyStr]
  have h1 : register_participant db r p = registerInsert db t p := by
    simp only [register_participant_resolve, hres]
  have h2 := registerInsert_run db t p hfp
  have h3 : create_match db r m = matchInsert db t m := by
    simp only [create_match_resolve, hres]
  have h4 := matchInsert_run db t m hfm
  refine ⟨?_, ?_, ?_, ?_⟩
  · refine ⟨_, by rw [h1, h2], ?_⟩
    rw [dget_created _ _ "tournament_id" rfl rfl, dget_dset_self, hpg]
  · refine ⟨_, by rw [h1, registerInsert_state], ?_⟩
    show dget (("_id", Val.vOid (freshOid db.counter)) ::
      dset p.model_dump "tournament_id" (Val.vStr (pyStr (pyGet t "_id")))) "tournament_id"
        = some (Val.vStr i)
    rw [show dget (("_id", Val.vOid (freshOid db.counter)) ::
      dset p.model_dump "tournament_id" (Val.vStr (pyStr (pyGet t "_id")))) "tournament_id"
        = dget (dset p.model_dump "tournament_id" (Val.vStr (pyStr (pyGet t "_id"))))
            "tournament_id" from rfl]
    rw [dget_dset_self, hpg]
  · refine ⟨_, by rw [h3, h4], ?_⟩
    rw [dget_created _ _ "tournament_id" rfl rfl, dget_dset_self, hpg]
  · refine ⟨_, by rw [h3, matchInsert_state], ?_⟩
    show dget (("_id", Val.vOid (freshOid db.counter)) ::
      dset m.model_dump "tournament_id" (Val.vStr (pyStr (pyGet t "_id")))) "tournament_id"
        = some (Val.vStr i)
    rw [show dget (("_id", Val.vOid (freshOid db.counter)) ::
      dset m.model_dump "tournament_id" (Val.vStr (pyStr (pyGet t "_id")))) "tournament_id"
        = dget (dset m.model_dump "tournament_id" (Val.vStr (pyStr (pyGet t "_id"))))
            "tournament_id" from rfl]
    rw [dget_dset_self, hpg]

/-- Witness for C5: registering through the share code ab12cd on dbC
stores and returns tournament_id 0123456789abcdef01234567 even though the
body supplied the value ignored. -/
theorem c5_tournament_id_overwritten_witness :
    ∃ d, (register_participant dbC "ab12cd" part0).1 = Resp.okDoc d ∧
         dget d "tournament_id" = some (Val.vStr "0123456789abcdef01234567") :=
  (c5_tournament_id_overwritten dbC "ab12cd" part0 match0 tournC
    "0123456789abcdef01234567" rfl rfl rfl rfl).1

/-- C4: creating a tournament from any payload that passes validation
returns the created record: its id is a non-empty string, its share_code
is present and non-empty (the 6-hex-character generated token when the
field was omitted), and the schema defaults fill omitted fields, status
upcoming and max_participants 48. -/
theorem c4_create_tournament_record (db : DB) (raw : RawTournament) (t : Tournament)
    (bytes : List Nat)
    (hok : parseTournament raw = .ok t)
    (hbytes : bytes.length = 3)
    (hfresh : freshFor db.tournament (freshOid db.counter) = true) :
    ∃ d : Doc,
      (post_tournament db raw bytes).1 = Resp.okDoc d ∧
      (∃ s, dget d "id" = some (Val.vStr s) ∧ s ≠ "") ∧
      (∃ cs, dget d "share_code" = some (Val.vStr cs) ∧ cs ≠ "") ∧
      (raw.share_code = none →
        dget d "share_code" = some (Val.vStr (token_hex bytes)) ∧
        (token_hex bytes).length = 6 ∧ isHexString (token_hex bytes) = true) ∧
      (raw.status = none → dget d "status" = some (Val.vStr "upcoming")) ∧
      (raw.max_participants = none → dget d "max_participants" = some (Val.vInt 48)) := by
  obtain ⟨hst, hmp, hsc, hmode⟩ := parseTournament_ok_fields raw t hok
  have hpost : post_tournament db raw bytes = create_tournament db t bytes := by
    simp [post_tournament, hok]
  have hrun := create_tournament_run db t bytes hfresh
  have htoklen : (token_hex bytes).length = 6 := by rw [token_hex_length, hbytes]
  have htokne : token_hex bytes ≠ "" :=
    ne_empty_of_length_pos _ (by rw [htoklen]; norm_num)
  refine ⟨_, by rw [hpost, hrun], ?_, ?_, ?_, ?_, ?_⟩
  · exact ⟨freshOid db.counter, dget_created_id _ _, freshOid_ne_empty db.counter⟩
  · have hd : dget (to_str_id (("_id", Val.vOid (freshOid db.counter)) ::
        dset t.model_dump "share_code" (pickShare (optStr t.share_code) bytes)))
        "share_code" = some (pickShare (optStr t.share_code) bytes) := by
      rw [dget_created _ _ "share_code" rfl rfl, dget_dset_self]
    have hcs : ∃ cs, pickShare (optStr t.share_code) bytes = Val.vStr cs ∧ cs ≠ "" := by
      cases hsc2 : t.share_code with
      | none => exact ⟨token_hex bytes, by simp [pickShare, optStr, Val.truthy], htokne⟩
      | some s0 =>
        by_cases hs0 : s0 = ""
        · exact ⟨token_hex bytes, by simp [pickShare, optStr, Val.truthy, hs0], htokne⟩
        · exact ⟨s0, by simp [pickShare, optStr, Val.truthy, hs0], hs0⟩
    rcases hcs with ⟨cs, hcs1, hcs2⟩
    exact ⟨cs, by rw [hd, hcs1], hcs2⟩
  · intro hraw
    have hsc2 : t.share_code = none := by rw [hsc, hraw]
    have hps : pickShare (optStr t.share_code) bytes = Val.vStr (token_hex bytes) := by
      simp [pickShare, hsc2, optStr, Val.truthy]
    refine ⟨?_, htoklen, token_hex_hex bytes⟩
    rw [dget_created _ _ "share_code" rfl rfl, dget_dset_self, hps]
  · intro hraw
    have hst2 : t.status = "upcoming" := by rw [hst, hraw]; rfl
    rw [dget_created _ _ "status" rfl rfl,
        dget_dset_ne t.model_dump "share_code" "status" _ rfl, dump_status, hst2]
  · intro hraw
    have hmp2 : t.max_participants = 48 := by rw [hmp, hraw]; rfl
    rw [dget_created _ _ "max_participants" rfl rfl,
        dget_dset_ne t.model_dump "share_code" "max_participants" _ rfl, dump_mp, hmp2]

/-- Witness for C4: creating from the minimal body (title Squad Cup, mode
Squad) on the empty store with random bytes 1, 2, 3. -/
theorem c4_create_tournament_record_witness :
    ∃ d : Doc,
      (post_tournament dbEmpty rawT0 [1, 2, 3]).1 = Resp.okDoc d ∧
      (∃ s, dget d "id" = some (Val.vStr s) ∧ s ≠ "") ∧
      (∃ cs, dget d "share_code" = some (Val.vStr cs) ∧ cs ≠ "") ∧
      (rawT0.share_code = none →
        dget d "share_code" = some (Val.vStr (token_hex [1, 2, 3])) ∧
        (token_hex [1, 2, 3]).length = 6 ∧ isHexString (token_hex [1, 2, 3]) = true) ∧
      (rawT0.status = none → dget d "status" = some (Val.vStr "upcoming")) ∧
      (rawT0.max_participants = none → dget d "max_participants" = some (Val.vInt 48)) :=
  c4_create_tournament_record dbEmpty rawT0 tourn0 [1, 2, 3] rfl rfl rfl

/-- C10: a falsy supplied share_code (absent or the empty string) is
replaced by the generated 6-hex-character token, so the created record
never carries an empty share code. -/
theorem c10_falsy_share_code (db : DB) (raw : RawTournament) (t : Tournament)
    (bytes : List Nat)
    (hok : parseTournament raw = .ok t)
    (hbytes : bytes.length = 3)
    (hfresh : freshFor db.tournament (freshOid db.counter) = true)
    (hfalsy : raw.share_code = none ∨ raw.share_code = some "") :
    ∃ d : Doc,
      (post_tournament db raw bytes).1 = Resp.okDoc d ∧
      dget d "share_code" = some (Val.vStr (token_hex bytes)) ∧
      (token_hex bytes).length = 6 ∧
      isHexString (token_hex bytes) = true ∧
      token_hex bytes ≠ "" := by
  obtain ⟨hst, hmp, hsc, hmode⟩ := parseTournament_ok_fields raw t hok
  have hpost : post_tournament db raw bytes = create_tournament db t bytes := by
    simp [post_tournament, hok]
  have hrun := create_tournament_run db t bytes hfresh
  have htoklen : (token_hex bytes).length = 6 := by rw [token_hex_length, hbytes]
  have htokne : token_hex bytes ≠ "" :=
    ne_empty_of_length_pos _ (by rw [htoklen]; norm_num)
  have hps : pickShare (optStr t.share_code) bytes = Val.vStr (token_hex bytes) := by
    rcases hfalsy with hraw | hraw
    · have hsc2 : t.share_code = none := by rw [hsc, hraw]
      simp [pickShare, hsc2, optStr, Val.truthy]
    · have hsc2 : t.share_code = some "" := by rw [hsc, hraw]
      simp [pickShare, hsc2, optStr, Val.truthy]
  refine ⟨_, by rw [hpost, hrun], ?_, htoklen, token_hex_hex bytes, htokne⟩
  rw [dget_created _ _ "share_code" rfl rfl, dget_dset_self, hps]

/-- Witness for C10: an explicitly empty share_code in the body is
replaced by the token generated from the bytes 7, 8, 9. -/
theorem c10_falsy_share_code_witness :
    ∃ d : Doc,
      (post_tournament dbEmpty rawEmptySC [7, 8, 9]).1 = Resp.okDoc d ∧
      dget d "share_code" = some (Val.vStr (token_hex [7, 8, 9])) ∧
      (token_hex [7, 8, 9]).length = 6 ∧
      isHexString (token_hex [7, 8, 9]) = true ∧
      token_hex [7, 8, 9] ≠ "" :=
  c10_falsy_share_code dbEmpty rawEmptySC tourn0sc [7, 8, 9] rfl rfl rfl
    (Or.inr rfl)

/-- C8: a body failing schema validation — required field missing, enum
field outside its allowed set, or max_participants outside 1..1000 —
makes the create operation fail with a validation error and leaves the
store unchanged; this holds for all three entity kinds. -/
theorem c8_validation_rejects (db : DB) (raw : RawTournament) (rawP : RawParticipant)
    (rawM : RawMatch) (r : String) (bytes : List Nat) :
    (∀ e, parseTournament raw = .error e →
      post_tournament db raw bytes = (Resp.err 422 e, db)) ∧
    (raw.mode = some "Trio" → ∃ e, parseTournament raw = .error e) ∧
    (raw.title = none → ∃ e, parseTournament raw = .error e) ∧
    (∀ n, raw.max_participants = some n → (n < 1 ∨ n > 1000) →
      ∃ e, parseTournament raw = .error e) ∧
    (∀ e, parseParticipant rawP = .error e →
      post_register db r rawP = (Resp.err 422 e, db)) ∧
    (rawP.name = none → ∃ e, parseParticipant rawP = .error e) ∧
    (∀ e, parseMatch rawM = .error e →
      post_match db r rawM = (Resp.err 422 e, db)) ∧
    (rawM.round_name = none → ∃ e, parseMatch rawM = .error e) := by
  refine ⟨?_, ?_, ?_, ?_, ?_, ?_, ?_, ?_⟩
  · intro e he
    simp [post_tournament, he]
  · intro hm
    cases hT : raw.title with
    | none => exact ⟨"title: field required", by simp [parseTournament, hT]⟩
    | some ti =>
      exact ⟨"mode: value is not a permitted literal", by simp [parseTournament, hT, hm]⟩
  · intro hT
    exact ⟨"title: field required", by simp [parseTournament, hT]⟩
  · intro n hn hrange
    cases hT : raw.title with
    | none => exact ⟨"title: field required", by simp [parseTournament, hT]⟩
    | some ti =>
      simp only [parseTournament, hT, hn]
      split
      · exact ⟨_, rfl⟩
      · rcases hrange with hlo | hhi
        · rw [if_pos (by simpa using hlo)]
          exact ⟨_, rfl⟩
        · rw [if_neg (by simp; omega), if_pos (by simpa using hhi)]
          exact ⟨_, rfl⟩
  · intro e he
    simp [post_register, he]
  · intro hname
    cases hT : rawP.tournament_id with
    | none => exact ⟨"tournament_id: field required", by simp [parseParticipant, hT]⟩
    | some tid => exact ⟨"name: field required", by simp [parseParticipant, hT, hname]⟩
  · intro e he
    simp [post_match, he]
  · intro hrn
    cases hT : rawM.tournament_id with
    | none => exact ⟨"tournament_id: field required", by simp [parseMatch, hT]⟩
    | some tid => exact ⟨"round_name: field required", by simp [parseMatch, hT, hrn]⟩

/-- Witness for C8: the body with mode Trio is rejected with a validation
error and the empty store stays empty. -/
theorem c8_validation_rejects_witness :
    (∃ e, parseTournament rawTrio = .error e) ∧
    post_tournament dbEmpty rawTrio [1, 2, 3] =
      (Resp.err 422 "mode: value is not a permitted literal", dbEmpty) := by
  have h := c8_validation_rejects dbEmpty rawTrio rawP0 rawM0 "x" [1, 2, 3]
  exact ⟨h.2.1 rfl, h.1 _ rfl⟩

end Backend
